import Mathlib

/-!
Verification of the call-state handoff protocol and IVR state machine of the
Twilio webhook relay (src/main.py, src/routes/sms_routes.py,
src/routes/voice_routes.py, src/utils/elevenlabs.py, src/config.py).

The embedding is shallow: each handler becomes a pure Lean function on an
explicit store, with the outcomes of external collaborators (the Twilio client,
the ElevenLabs HTTP call) supplied as parameters, since those collaborators
live outside this repository.  TwiML response documents are modelled as lists
of verbs, mirroring exactly the sequence of `say`/`play`/`pause`/`gather`/
`hangup` calls made on a `VoiceResponse` object.
-/

namespace TwilioRelay

/-- CallContext: the dictionary value stored in `call_data_store` by
`send_call_with_message` (voice_routes.py lines 44-49): keys `sms_body`,
`from_number`, `to_number`, `message_sid`. -/
structure CallContext where
  sms_body : String
  from_number : String
  to_number : String
  message_sid : String
deriving DecidableEq, Repr

/-- The process-wide `call_data_store : Dict[str, Dict]` of sms_routes.py
line 15, modelled as an association list with Python-dict semantics
(lookup finds the single binding of a key; assignment replaces it;
`del` removes it). -/
abbrev Store := List (String × CallContext)

/-- Dictionary lookup `store[k]` / membership `k in store`: returns the
binding of `k` if present. -/
def storeGet : Store → String → Option CallContext
  | [], _ => none
  | (k, v) :: rest, key => if k = key then some v else storeGet rest key

/-- Dictionary deletion `del store[k]` (a no-op when the key is absent,
matching the guarded `if call_id in call_data_store: del ...` at
voice_routes.py lines 214-215). -/
def storeErase (s : Store) (k : String) : Store :=
  s.filter (fun p => p.1 != k)

/-- Dictionary assignment `store[k] = v`. -/
def storePut (s : Store) (k : String) (v : CallContext) : Store :=
  (k, v) :: storeErase s k

theorem storeGet_storePut (s : Store) (k : String) (v : CallContext) :
    storeGet (storePut s k v) k = some v := by
  simp [storePut, storeGet]

theorem storeGet_storeErase (s : Store) (k : String) :
    storeGet (storeErase s k) k = none := by
  induction s with
  | nil => rfl
  | cons a rest ih =>
    by_cases h : a.1 = k
    · simpa [storeErase, List.filter_cons, h] using ih
    · simpa [storeErase, List.filter_cons, h, storeGet] using ih

/-- GatherSpec: the attributes and nested prompts of a twilio `Gather` verb
as constructed at voice_routes.py lines 127-137 (`num_digits`, `timeout`,
`action`, `method`, plus the `say` prompts appended inside the gather,
each a (text, voice) pair). -/
structure GatherSpec where
  numDigits : Nat
  timeout : Nat
  action : String
  method : String
  prompts : List (String × String)
deriving DecidableEq, Repr

/-- One verb of a TwiML voice response document, in document order. -/
inductive Verb where
  | say (text : String) (voice : String)
  | play (url : String)
  | pause (length : Nat)
  | gather (g : GatherSpec)
  | hangup
  | redirect (url : String)
deriving DecidableEq, Repr

/-- A TwiML voice response document: the ordered verbs appended to a
`VoiceResponse` object. -/
abbrev Response := List Verb

/-- The SSML wrapper applied to every spoken text in the voice routes:
`<speak><prosody rate='medium' pitch='high' volume='medium'>...</prosody></speak>`. -/
def ssml (t : String) : String :=
  "<speak><prosody rate='medium' pitch='high' volume='medium'>" ++ t
    ++ "</prosody></speak>"

/-- Python truthiness of an optional string: `not x` is true when the value
is missing or the empty string. -/
def pyFalsyStr : Option String → Bool
  | none => true
  | some s => s == ""

/-- Python's `s.startswith("+")` as used by the `/call/send` validation:
the first character of `s` is `'+'`. -/
def startswith_plus (s : String) : Bool :=
  s.data.head? == some '+'

/-- Environment of one `generate_elevenlabs_audio` invocation
(utils/elevenlabs.py): the configured `ELEVENLABS_API_KEY`, the outcome of
the `requests.post` to the provider (`transportError` when the call raises,
otherwise the HTTP `status`), the freshly generated uuid `filename`, and the
request `baseUrl` used to build the public URL. -/
structure SynthEnv where
  apiKey : Option String
  transportError : Bool
  status : Nat
  filename : String
  baseUrl : String
deriving DecidableEq, Repr

/-- generate_elevenlabs_audio (utils/elevenlabs.py lines 12-68): returns the
public URL of the saved audio file on a 200 from the provider, and `none`
when the API key is missing, the HTTP call raises, or the provider returns
a non-200.  The submitted `text` goes into the request body only; the
returned URL is built from the generated filename. -/
def generate_elevenlabs_audio (env : SynthEnv) (text : String) : Option String :=
  if pyFalsyStr env.apiKey then none
  else if env.transportError then none
  else if env.status = 200 then some (env.baseUrl ++ "/audio/" ++ env.filename ++ ".mp3")

  else none

/-- The IVR menu block appended after the greeting in
`handle_voice_call_webhook` (voice_routes.py lines 126-146): a single-digit
`Gather` with a 10-second timeout posting to the digit endpoint for the same
call id, followed by the no-input farewell and hangup. -/
def ivrMenu (call_id : String) : Response :=
  [ Verb.gather
      { numDigits := 1
        timeout := 10
        action := "/webhook/voice/input/" ++ call_id
        method := "POST"
        prompts :=
          [(ssml "Press 1 to end the call, or press 2 for a special message.",
            "Polly.Emma")] },
    Verb.say (ssml "I didn't receive any input. Goodbye!") "Polly.Emma",
    Verb.hangup ]

/-- handle_voice_call_webhook (voice_routes.py lines 88-155).  Returns the
TwiML document together with a flag recording whether speech synthesis was
attempted (whether `generate_elevenlabs_audio` was invoked at all).  On a
store miss the handler answers with the fixed apology and hangs up without
invoking synthesis; on a hit it plays the synthesized audio when available
and otherwise falls back to Twilio TTS of the stored text, then appends the
IVR menu.  Every failure mode of the collaborators is already converted to
`none` inside `generate_elevenlabs_audio`, so no statement in the handler's
`try` block can raise and the outer `except` branch is unreachable. -/
def handle_voice_call_webhook (store : Store) (call_id : String)
    (env : SynthEnv) : Response × Bool :=
  match storeGet store call_id with
  | none =>
      ([Verb.say "Sorry, there was an error processing your call." "Polly.Emma",
        Verb.hangup], false)
  | some call_data =>
      let sms_body := call_data.sms_body
      let audio_url := generate_elevenlabs_audio env sms_body
      let intro : Response :=
        match audio_url with
        | some url => [Verb.play url, Verb.pause 1]
        | none => [Verb.say (ssml sms_body) "Polly.Emma", Verb.pause 1]
      (intro ++ ivrMenu call_id, true)

/-- Digit extraction in `handle_voice_input_webhook` (voice_routes.py lines
173-179): on GET the `Digits` query parameter with default `""`, on POST the
`Digits` form field with `Digits or ""`. -/
def extractDigits (isGet : Bool) (queryDigits formDigits : Option String) :
    String :=
  if isGet then queryDigits.getD "" else formDigits.getD ""

/-- The branch selection of `handle_voice_input_webhook` (voice_routes.py
lines 185-210): "1" says goodbye and hangs up, "2" says the two-part special
message and hangs up, anything else (including the empty string standing for
absent input) says the invalid-option farewell and hangs up. -/
def digitResponse (digits : String) : Response :=
  if digits = "1" then
    [Verb.say (ssml "Goodbye!") "Polly.Emma", Verb.hangup]
  else if digits = "2" then
    [Verb.say (ssml "Thanks for picking up the phone dude!") "Polly.Emma",
     Verb.pause 1,
     Verb.say (ssml "Have a great day!") "Polly.Emma",
     Verb.hangup]
  else
    [Verb.say (ssml "Invalid option. Goodbye!") "Polly.Emma", Verb.hangup]

/-- handle_voice_input_webhook (voice_routes.py lines 163-224).  The body
runs inside try/except; `raiseDuringResponse` models an exception raised by
one of the response-construction statements (lines 172-210, before the
cleanup): the `except` branch then returns the fixed error response and the
cleanup `del` at lines 212-215 never runs, so the store is returned
unchanged.  On the normal path the branch response is built from the digits
alone and the entry for `call_id` is then deleted. -/
def handle_voice_input_webhook (store : Store) (call_id : String)
    (isGet : Bool) (queryDigits formDigits : Option String)
    (raiseDuringResponse : Bool) : Response × Store :=
  if raiseDuringResponse then
    ([Verb.say "Sorry, there was an error. Goodbye!" "Polly.Emma", Verb.hangup],
     store)
  else
    let digits := extractDigits isGet queryDigits formDigits
    (digitResponse digits, storeErase store call_id)

/-- Twilio-side environment of one call-placing handler invocation: whether
`twilio_client` was initialised and the configured `TWILIO_PHONE_NUMBER`
(empty string standing for unset, per Python truthiness), the outcome of
`twilio_client.calls.create` (`placementFails` when it raises, with the
exception text `placementError`, otherwise the returned `call.sid`). -/
structure TwilioEnv where
  hasClient : Bool
  phoneNumber : String
  placementFails : Bool
  placementError : String
  callSid : String
deriving DecidableEq, Repr

/-- The JSON outcome of the `/call/send` endpoint: either an `HTTPException`
with a status code and detail, or the success body's identifying fields. -/
inductive CallSendResult where
  | error (status : Nat) (detail : String)
  | success (call_sid : String) (call_id : String) (phone_number : String)
deriving DecidableEq, Repr

/-- HTTP status of a `CallSendResult` error, `none` on success. -/
def resultStatus : CallSendResult → Option Nat
  | CallSendResult.error s _ => some s
  | CallSendResult.success _ _ _ => none

/-- A call placement handed to `twilio_client.calls.create`: either a
callback `url` or inline `twiml`, with destination and origin numbers. -/
structure PlacedCall where
  url : Option String
  twiml : Option Response
  toNumber : String
  fromNumber : String
deriving DecidableEq, Repr

/-- send_call_with_message (voice_routes.py lines 22-80).  `call_id` is the
freshly generated uuid.  Order of effects as in the source: configuration
check (500), phone-number prefix check (400), store write, call placement
(on failure a 500 with the exception text, with the store entry already
written and kept).  The third component is the call given to
`calls.create`, `none` when no call was placed. -/
def send_call_with_message (env : TwilioEnv) (store : Store)
    (message phone_number call_id base_url : String) :
    CallSendResult × Store × Option PlacedCall :=
  if env.hasClient = false ∨ env.phoneNumber = "" then
    (CallSendResult.error 500 "Twilio client not configured", store, none)
  else if startswith_plus phone_number = false then
    (CallSendResult.error 400
      "Phone number must include country code (e.g., +1234567890)", store, none)
  else
    let ctx : CallContext :=
      { sms_body := message
        from_number := env.phoneNumber
        to_number := phone_number
        message_sid := "api_call_" ++ call_id }
    let store' := storePut store call_id ctx
    let webhook_url := base_url ++ "/webhook/voice/call/" ++ call_id
    if env.placementFails then
      (CallSendResult.error 500
        ("Failed to initiate call: " ++ env.placementError), store', none)
    else
      (CallSendResult.success env.callSid call_id phone_number, store',
       some { url := some webhook_url
              twiml := none
              toNumber := phone_number
              fromNumber := env.phoneNumber })

/-- Environment of one inbound-SMS handler invocation (main.py): Twilio
client presence and configured number (Python truthiness: empty string
stands for unset), the outcome of `calls.create` (`callFails` when it
raises, otherwise the returned `call.sid`), and the ElevenLabs environment
for the synthesis attempt made while building the call's TwiML. -/
structure SmsEnv where
  hasClient : Bool
  phoneNumber : String
  callFails : Bool
  callSid : String
  synth : SynthEnv
deriving DecidableEq, Repr

/-- The inline TwiML built for the outbound call in main.py's
`handle_sms_webhook` (lines 90-109): play the synthesized audio when
available, otherwise Twilio TTS of the message body followed by the
thank-you farewell. -/
def mainCallTwiml (env : SynthEnv) (body : String) : Response :=
  match generate_elevenlabs_audio env body with
  | some url => [Verb.play url, Verb.pause 1]
  | none =>
      [Verb.say (ssml body) "Polly.Emma",
       Verb.pause 1,
       Verb.say (ssml "Thank you for your message. Goodbye!") "Polly.Emma"]

/-- handle_sms_webhook (main.py lines 59-147), the "call back" variant of
the inbound message handler.  Returns the messaging-response texts, the
call-state store (which this handler never touches: main.py does not import
`call_data_store`), and the call given to `calls.create` — placed with
inline `twiml`, no callback URL and no call id.  When the client is not
configured or placement raises, no call is placed and a degraded
acknowledgment quoting the body is returned. -/
def handle_sms_webhook (env : SmsEnv) (store : Store)
    (From To Body MessageSid : String) :
    List String × Store × Option PlacedCall :=
  if env.hasClient = true ∧ env.phoneNumber ≠ "" then
    if env.callFails then
      (["Received your message: '" ++ Body
          ++ "'. Sorry, I couldn't call you back due to an error."],
       store, none)
    else
      (["Thanks for your message! I'm calling you now to read it back. Call SID: "
          ++ env.callSid],
       store,
       some { url := none
              twiml := some (mainCallTwiml env.synth Body)
              toNumber := From
              fromNumber := env.phoneNumber })
  else
    (["Received your message: '" ++ Body
        ++ "'. Twilio calling is not configured."],
     store, none)

/-- A verb that re-enters input capture or re-routes the call: a `Gather`
(menu) or a `Redirect`.  Terminal responses contain none after their
decision point. -/
def isMenuVerb : Verb → Bool
  | Verb.gather _ => true
  | Verb.redirect _ => true
  | _ => false

/-- A response is terminal when it contains no menu or redirect verb and its
last verb hangs up: the call ends, with no retry and no loop back. -/
def terminalResponse (r : Response) : Bool :=
  r.all (fun v => !(isMenuVerb v)) && (r.getLast? == some Verb.hangup)

/-- The gather specifications occurring in a response, in order. -/
def gathersOf (r : Response) : List GatherSpec :=
  r.filterMap (fun v =>
    match v with
    | Verb.gather g => some g
    | _ => none)

/-- The verbs following the first gather of a response (the path taken when
the gather captures no digit before its timeout). -/
def afterFirstGather : Response → Response
  | [] => []
  | Verb.gather _ :: rest => rest
  | _ :: rest => afterFirstGather rest

/-! Concrete fixtures used by witness and counterexample theorems. -/

/-- A sample stored call context. -/
def ctx0 : CallContext :=
  { sms_body := "Hello there"
    from_number := "+15550001111"
    to_number := "+15551234567"
    message_sid := "api_call_id1" }

/-- A synthesis environment with no API key configured. -/
def synthNoKey : SynthEnv :=
  { apiKey := none
    transportError := false
    status := 200
    filename := "f0"
    baseUrl := "http://localhost:5002" }

/-- A configured Twilio environment whose call placement succeeds. -/
def twEnv0 : TwilioEnv :=
  { hasClient := true
    phoneNumber := "+15550001111"
    placementFails := false
    placementError := ""
    callSid := "CA123" }

/-- A configured Twilio environment whose call placement raises. -/
def twEnvFail : TwilioEnv :=
  { twEnv0 with placementFails := true, placementError := "boom" }

/-- An unconfigured Twilio environment (no client initialised). -/
def twEnvUnconf : TwilioEnv :=
  { twEnv0 with hasClient := false }

/-- A configured SMS-handler environment whose call placement succeeds and
whose synthesis environment has no API key. -/
def smsEnv0 : SmsEnv :=
  { hasClient := true
    phoneNumber := "+15550001111"
    callFails := false
    callSid := "CA123"
    synth := synthNoKey }

/-- Helper: every failure mode of the speech-synthesis collaborator (missing
API key, transport error, non-200 status) makes `generate_elevenlabs_audio`
return `none`. -/
theorem generate_audio_none_of_failure (env : SynthEnv) (text : String)
    (h : pyFalsyStr env.apiKey = true ∨ env.transportError = true ∨ env.status ≠ 200) :
    generate_elevenlabs_audio env text = none := by
  rcases h with h | h | h
  · simp [generate_elevenlabs_audio, h]
  · cases hpk : pyFalsyStr env.apiKey <;>
      simp [generate_elevenlabs_audio, hpk, h]
  · cases hpk : pyFalsyStr env.apiKey <;> cases hte : env.transportError <;>
      simp [generate_elevenlabs_audio, hpk, hte, h]

/-- C1 counterexample: with an error raised while producing the response
(the `except` path of `handle_voice_input_webhook`), the call-state entry is
NOT deleted — a subsequent lookup for the same call id still hits, refuting
the claim that deletion happens even when an error occurs while producing
the response. -/
theorem ivr_cleanup_skipped_on_error :
    storeGet
      (handle_voice_input_webhook (storePut [] "call-1" ctx0) "call-1"
        false none (some "1") true).2 "call-1" = some ctx0 := by
  decide

/-- C1 (amended): after the IVR Digit Handler processes a request on the
normal path (no exception while producing the response), the store no longer
contains an entry for the call id, for every digit input; when an exception
is raised while producing the response, the handler returns its fixed error
response and the store is left unchanged. -/
theorem ivr_cleanup_unconditional_on_normal_path (store : Store)
    (call_id : String) (isGet : Bool) (queryDigits formDigits : Option String) :
    storeGet
        (handle_voice_input_webhook store call_id isGet queryDigits formDigits
          false).2 call_id = none
    ∧ (handle_voice_input_webhook store call_id isGet queryDigits formDigits
        true).2 = store := by
  constructor
  · simp [handle_voice_input_webhook, storeGet_storeErase]
  · rfl

/-- C2: after the Outbound Call Initiator stores a call context under a call
id, a lookup of that id in the resulting store (the lookup the Voice
Greeting Handler performs) returns exactly the stored message text and
destination number, whether or not call placement then succeeds. -/
theorem outbound_call_store_roundtrip (env : TwilioEnv) (store : Store)
    (message phone_number call_id base_url : String)
    (hc : env.hasClient = true) (hp : env.phoneNumber ≠ "")
    (hv : startswith_plus phone_number = true) :
    storeGet
        (send_call_with_message env store message phone_number call_id
          base_url).2.1 call_id
      = some { sms_body := message
               from_number := env.phoneNumber
               to_number := phone_number
               message_sid := "api_call_" ++ call_id } := by
  by_cases hf : env.placementFails <;>
    simp [send_call_with_message, hc, hp, hv, hf, storeGet_storePut]

/-- Witness for C2 at a concrete configured environment and number. -/
theorem outbound_call_store_roundtrip_witness :
    twEnv0.hasClient = true ∧ twEnv0.phoneNumber ≠ ""
    ∧ startswith_plus "+15551234567" = true
    ∧ storeGet
        (send_call_with_message twEnv0 [] "Hello there" "+15551234567" "id1"
          "http://localhost:5002").2.1 "id1"
      = some { sms_body := "Hello there"
               from_number := twEnv0.phoneNumber
               to_number := "+15551234567"
               message_sid := "api_call_" ++ "id1" } :=
  ⟨rfl, by decide, by decide,
    outbound_call_store_roundtrip twEnv0 [] "Hello there" "+15551234567" "id1"
      "http://localhost:5002" rfl (by decide) (by decide)⟩

/-- C3: for every request, the IVR Digit Handler's response on the normal
path is exactly the goodbye response on digit "1", the two-part special
message on digit "2", and the invalid-option response on everything else
(absent input extracted as ""), and every branch is terminal: no gather, no
redirect, last verb is a hangup. -/
theorem ivr_digit_branches_partition (store : Store) (call_id : String)
    (isGet : Bool) (queryDigits formDigits : Option String) :
    (handle_voice_input_webhook store call_id isGet queryDigits formDigits
        false).1
      = (if extractDigits isGet queryDigits formDigits = "1" then
           [Verb.say (ssml "Goodbye!") "Polly.Emma", Verb.hangup]
         else if extractDigits isGet queryDigits formDigits = "2" then
           [Verb.say (ssml "Thanks for picking up the phone dude!") "Polly.Emma",
            Verb.pause 1,
            Verb.say (ssml "Have a great day!") "Polly.Emma",
            Verb.hangup]
         else
           [Verb.say (ssml "Invalid option. Goodbye!") "Polly.Emma",
            Verb.hangup])
    ∧ terminalResponse
        (handle_voice_input_webhook store call_id isGet queryDigits formDigits
          false).1 = true := by
  refine ⟨rfl, ?_⟩
  show terminalResponse
      (digitResponse (extractDigits isGet queryDigits formDigits)) = true
  by_cases h1 : extractDigits isGet queryDigits formDigits = "1"
  · simp only [digitResponse, h1, if_pos]
    decide
  · by_cases h2 : extractDigits isGet queryDigits formDigits = "2"
    · simp only [digitResponse, h1, h2, if_neg, if_pos]
      decide
    · simp only [digitResponse, h1, h2, if_neg]
      decide

/-- C4: when speech synthesis fails or is unavailable (missing API key,
transport error, or non-200 provider status), the Voice Greeting Handler on
a store hit produces the fallback response: Twilio TTS of the same stored
text, then the same IVR menu. -/
theorem greeting_fallback_same_text_same_menu (store : Store)
    (call_id : String) (env : SynthEnv) (ctx : CallContext)
    (hhit : storeGet store call_id = some ctx)
    (hfail : pyFalsyStr env.apiKey = true ∨ env.transportError = true
      ∨ env.status ≠ 200) :
    handle_voice_call_webhook store call_id env
      = (Verb.say (ssml ctx.sms_body) "Polly.Emma" :: Verb.pause 1
          :: ivrMenu call_id, true) := by
  simp [handle_voice_call_webhook, hhit,
    generate_audio_none_of_failure env ctx.sms_body hfail]

/-- Witness for C4: a stored context and a synthesis environment with no
API key. -/
theorem greeting_fallback_same_text_same_menu_witness :
    storeGet (storePut [] "id1" ctx0) "id1" = some ctx0
    ∧ (pyFalsyStr synthNoKey.apiKey = true ∨ synthNoKey.transportError = true
        ∨ synthNoKey.status ≠ 200)
    ∧ handle_voice_call_webhook (storePut [] "id1" ctx0) "id1" synthNoKey
        = (Verb.say (ssml ctx0.sms_body) "Polly.Emma" :: Verb.pause 1
            :: ivrMenu "id1", true) :=
  ⟨by decide, Or.inl (by decide),
    greeting_fallback_same_text_same_menu (storePut [] "id1" ctx0) "id1"
      synthNoKey ctx0 (by decide) (Or.inl (by decide))⟩

/-- C5: on a call id absent from the store, the Voice Greeting Handler
produces exactly the terminal apology-and-hangup response and never invokes
speech synthesis (the second component is the synthesis-attempted flag). -/
theorem greeting_miss_terminal_no_synthesis (store : Store)
    (call_id : String) (env : SynthEnv)
    (hmiss : storeGet store call_id = none) :
    handle_voice_call_webhook store call_id env
      = ([Verb.say "Sorry, there was an error processing your call."
            "Polly.Emma", Verb.hangup], false)
    ∧ terminalResponse (handle_voice_call_webhook store call_id env).1
        = true := by
  constructor
  · simp [handle_voice_call_webhook, hmiss]
  · simp only [handle_voice_call_webhook, hmiss]
    decide

/-- Witness for C5 on the empty store. -/
theorem greeting_miss_terminal_no_synthesis_witness :
    storeGet [] "unknown-id" = none
    ∧ handle_voice_call_webhook [] "unknown-id" synthNoKey
        = ([Verb.say "Sorry, there was an error processing your call."
              "Polly.Emma", Verb.hangup], false)
    ∧ terminalResponse (handle_voice_call_webhook [] "unknown-id" synthNoKey).1
        = true :=
  ⟨rfl,
    (greeting_miss_terminal_no_synthesis [] "unknown-id" synthNoKey rfl).1,
    (greeting_miss_terminal_no_synthesis [] "unknown-id" synthNoKey rfl).2⟩

/-- C6 counterexample: on a successfully handled inbound SMS, main.py's
handler creates NO call-state entry (the store stays empty) and places the
call with inline TwiML and no callback URL (so no call id travels in any
URL), refuting the claimed store write and callback URL; only the
acknowledgment referencing the placed call's SID holds. -/
theorem sms_callback_counterexample :
    (handle_sms_webhook smsEnv0 [] "+15551234567" "+15550001111" "Hello there"
        "SM1").2.1 = []
    ∧ (handle_sms_webhook smsEnv0 [] "+15551234567" "+15550001111"
          "Hello there" "SM1").2.2
        = some { url := none
                 twiml := some (mainCallTwiml smsEnv0.synth "Hello there")
                 toNumber := "+15551234567"
                 fromNumber := smsEnv0.phoneNumber }
    ∧ (handle_sms_webhook smsEnv0 [] "+15551234567" "+15550001111"
          "Hello there" "SM1").1
        = ["Thanks for your message! I'm calling you now to read it back. Call SID: CA123"] := by
  refine ⟨rfl, rfl, by decide⟩

/-- C6 (amended): in the "call back" variant (main.py), every successfully
handled inbound message places an outbound call to the sender carrying
inline TwiML that speaks the message text — no store entry is created and no
callback URL with a call id is used — and returns an acknowledgment
referencing the placed call's provider identifier. -/
theorem sms_callback_inline_twiml (env : SmsEnv) (store : Store)
    (From To Body MessageSid : String)
    (hc : env.hasClient = true) (hp : env.phoneNumber ≠ "")
    (hok : env.callFails = false) :
    handle_sms_webhook env store From To Body MessageSid
      = (["Thanks for your message! I'm calling you now to read it back. Call SID: "
            ++ env.callSid],
         store,
         some { url := none
                twiml := some (mainCallTwiml env.synth Body)
                toNumber := From
                fromNumber := env.phoneNumber }) := by
  simp [handle_sms_webhook, hc, hp, hok]

/-- Witness for the amended C6 at a concrete configured environment. -/
theorem sms_callback_inline_twiml_witness :
    smsEnv0.hasClient = true ∧ smsEnv0.phoneNumber ≠ ""
    ∧ smsEnv0.callFails = false
    ∧ handle_sms_webhook smsEnv0 [] "+15551234567" "+15550001111"
          "Hello there" "SM1"
        = (["Thanks for your message! I'm calling you now to read it back. Call SID: "
              ++ smsEnv0.callSid],
           [],
           some { url := none
                  twiml := some (mainCallTwiml smsEnv0.synth "Hello there")
                  toNumber := "+15551234567"
                  fromNumber := smsEnv0.phoneNumber }) :=
  ⟨rfl, by decide, rfl,
    sms_callback_inline_twiml smsEnv0 [] "+15551234567" "+15550001111"
      "Hello there" "SM1" rfl (by decide) rfl⟩

/-- C7 counterexample: with the Twilio client not configured, a request
whose phone number lacks the "+" never reaches the prefix check: the
handler returns a 500 configuration error, not the claimed 400 (though
still with no call placed and no store entry). -/
theorem call_send_unconfigured_counterexample :
    send_call_with_message twEnvUnconf [] "hi" "5551234567" "id1"
        "http://localhost:5002"
      = (CallSendResult.error 500 "Twilio client not configured", [], none)
    ∧ resultStatus
        (send_call_with_message twEnvUnconf [] "hi" "5551234567" "id1"
          "http://localhost:5002").1 ≠ some 400 := by
  refine ⟨by decide, by decide⟩

/-- C7 (amended): when the Twilio client is configured, every direct-API
request whose phone number does not start with "+" is rejected with a 400
error, no call is placed, and the store is returned unchanged. -/
theorem call_send_bad_number_rejected (env : TwilioEnv) (store : Store)
    (message phone_number call_id base_url : String)
    (hc : env.hasClient = true) (hp : env.phoneNumber ≠ "")
    (hbad : startswith_plus phone_number = false) :
    send_call_with_message env store message phone_number call_id base_url
      = (CallSendResult.error 400
           "Phone number must include country code (e.g., +1234567890)",
         store, none) := by
  simp [send_call_with_message, hc, hp, hbad]

/-- Witness for the amended C7 at a configured environment and the spec's
example number "5551234567". -/
theorem call_send_bad_number_rejected_witness :
    twEnv0.hasClient = true ∧ twEnv0.phoneNumber ≠ ""
    ∧ startswith_plus "5551234567" = false
    ∧ send_call_with_message twEnv0 [] "hi" "5551234567" "id1"
          "http://localhost:5002"
        = (CallSendResult.error 400
             "Phone number must include country code (e.g., +1234567890)",
           [], none) :=
  ⟨rfl, by decide, by decide,
    call_send_bad_number_rejected twEnv0 [] "hi" "5551234567" "id1"
      "http://localhost:5002" rfl (by decide) (by decide)⟩

/-- C8: on every store hit, whatever the synthesis outcome, the greeting
response contains exactly one gather — single-digit, 10-second timeout,
posting to the digit endpoint for the same call id — and the verbs after
that gather (the no-input path) are exactly the no-input farewell and a
hangup: no retry, no loop back to the menu. -/
theorem greeting_menu_shape (store : Store) (call_id : String)
    (env : SynthEnv) (ctx : CallContext)
    (hhit : storeGet store call_id = some ctx) :
    gathersOf (handle_voice_call_webhook store call_id env).1
      = [{ numDigits := 1
           timeout := 10
           action := "/webhook/voice/input/" ++ call_id
           method := "POST"
           prompts :=
             [(ssml "Press 1 to end the call, or press 2 for a special message.",
               "Polly.Emma")] }]
    ∧ afterFirstGather (handle_voice_call_webhook store call_id env).1
        = [Verb.say (ssml "I didn't receive any input. Goodbye!") "Polly.Emma",
           Verb.hangup] := by
  cases haudio : generate_elevenlabs_audio env ctx.sms_body <;>
    simp [handle_voice_call_webhook, hhit, haudio, ivrMenu, gathersOf,
      afterFirstGather]

/-- Witness for C8 at a concrete stored context. -/
theorem greeting_menu_shape_witness :
    storeGet (storePut [] "id1" ctx0) "id1" = some ctx0
    ∧ gathersOf (handle_voice_call_webhook (storePut [] "id1" ctx0) "id1"
          synthNoKey).1
        = [{ numDigits := 1
             timeout := 10
             action := "/webhook/voice/input/" ++ "id1"
             method := "POST"
             prompts :=
               [(ssml "Press 1 to end the call, or press 2 for a special message.",
                 "Polly.Emma")] }]
    ∧ afterFirstGather (handle_voice_call_webhook (storePut [] "id1" ctx0)
          "id1" synthNoKey).1
        = [Verb.say (ssml "I didn't receive any input. Goodbye!") "Polly.Emma",
           Verb.hangup] :=
  ⟨by decide,
    (greeting_menu_shape (storePut [] "id1" ctx0) "id1" synthNoKey ctx0
      (by decide)).1,
    (greeting_menu_shape (storePut [] "id1" ctx0) "id1" synthNoKey ctx0
      (by decide)).2⟩

/-- C9: the IVR Digit Handler's spoken response is identical across any two
store states for the same request — it never depends on the store contents,
so an unknown call id yields the same response as a known one. -/
theorem ivr_digit_response_store_independent (s1 s2 : Store)
    (call_id : String) (isGet : Bool) (queryDigits formDigits : Option String)
    (raiseDuringResponse : Bool) :
    (handle_voice_input_webhook s1 call_id isGet queryDigits formDigits
        raiseDuringResponse).1
      = (handle_voice_input_webhook s2 call_id isGet queryDigits formDigits
          raiseDuringResponse).1 := by
  cases raiseDuringResponse <;> rfl

/-- C10: the direct-API initiator is not atomic on failure: with a
configured client and a valid number, when call placement raises, the
handler returns a 500 failure while the already-written store entry for the
fresh call id remains, and no call was placed. -/
theorem call_send_entry_survives_placement_failure (env : TwilioEnv)
    (store : Store) (message phone_number call_id base_url : String)
    (hc : env.hasClient = true) (hp : env.phoneNumber ≠ "")
    (hv : startswith_plus phone_number = true)
    (hf : env.placementFails = true) :
    resultStatus
        (send_call_with_message env store message phone_number call_id
          base_url).1 = some 500
    ∧ storeGet
        (send_call_with_message env store message phone_number call_id
          base_url).2.1 call_id
      = some { sms_body := message
               from_number := env.phoneNumber
               to_number := phone_number
               message_sid := "api_call_" ++ call_id }
    ∧ (send_call_with_message env store message phone_number call_id
        base_url).2.2 = none := by
  refine ⟨?_, ?_, ?_⟩ <;>
    simp [send_call_with_message, hc, hp, hv, hf, resultStatus,
      storeGet_storePut]

/-- Witness for C10 at a configured environment whose placement raises. -/
theorem call_send_entry_survives_placement_failure_witness :
    twEnvFail.hasClient = true ∧ twEnvFail.phoneNumber ≠ ""
    ∧ startswith_plus "+15551234567" = true
    ∧ twEnvFail.placementFails = true
    ∧ (resultStatus
        (send_call_with_message twEnvFail [] "Hello there" "+15551234567"
          "id1" "http://localhost:5002").1 = some 500
      ∧ storeGet
          (send_call_with_message twEnvFail [] "Hello there" "+15551234567"
            "id1" "http://localhost:5002").2.1 "id1"
        = some { sms_body := "Hello there"
                 from_number := twEnvFail.phoneNumber
                 to_number := "+15551234567"
                 message_sid := "api_call_" ++ "id1" }
      ∧ (send_call_with_message twEnvFail [] "Hello there" "+15551234567"
          "id1" "http://localhost:5002").2.2 = none) :=
  ⟨rfl, by decide, by decide, rfl,
    call_send_entry_survives_placement_failure twEnvFail [] "Hello there"
      "+15551234567" "id1" "http://localhost:5002" rfl (by decide) (by decide)
      rfl⟩

end TwilioRelay
